import Mathlib

/-!
Verification development for the ShopGPT frontend client.

The embedded source is:
- the page component (handleSendMessage and the conversation state:
  messages, isLoading, sessionIdRef, toast);
- ChatInput (handleSubmit: submission gating on trimmed input and the
  disabled flag);
- ProductCard (image resolution via JSON.parse and price formatting).

JavaScript JSON.parse is modelled by a fuel-based JSON parser over the
standard JSON grammar; a parse exception is modelled by the parser
returning none.
-/

namespace ShopGPT

/-- The left brace character, written numerically. -/
def lbrace : Char := Char.ofNat 123

/-- The right brace character, written numerically. -/
def rbrace : Char := Char.ofNat 125

/-- The apostrophe character, written numerically. -/
def apos : Char := Char.ofNat 39

/-- A JSON value, as produced by JSON.parse. Numbers keep their source
lexeme: no claim inspects numeric values, only parse success and shape. -/
inductive Json where
  | null
  | bool (b : Bool)
  | num (raw : String)
  | str (s : String)
  | arr (elems : List Json)
  | obj (fields : List (String × Json))

/-- JSON insignificant whitespace. -/
def jsonWs (c : Char) : Bool :=
  c = ' ' || c = '\t' || c = '\n' || c = '\r'

/-- Drop leading JSON whitespace. -/
def skipWs : List Char → List Char
  | [] => []
  | c :: cs => if jsonWs c then skipWs cs else c :: cs

/-- Hexadecimal digit value. -/
def hexVal (c : Char) : Option Nat :=
  if '0' ≤ c ∧ c ≤ '9' then some (c.toNat - '0'.toNat)
  else if 'a' ≤ c ∧ c ≤ 'f' then some (c.toNat - 'a'.toNat + 10)
  else if 'A' ≤ c ∧ c ≤ 'F' then some (c.toNat - 'A'.toNat + 10)
  else none

/-- Decode one escape sequence after the backslash, returning the decoded
character and the remaining input. -/
def parseEscape : List Char → Option (Char × List Char)
  | [] => none
  | e :: cs2 =>
    if e = '"' then some ('"', cs2)
    else if e = '\\' then some ('\\', cs2)
    else if e = '/' then some ('/', cs2)
    else if e = 'b' then some (Char.ofNat 8, cs2)
    else if e = 'f' then some (Char.ofNat 12, cs2)
    else if e = 'n' then some ('\n', cs2)
    else if e = 'r' then some ('\r', cs2)
    else if e = 't' then some ('\t', cs2)
    else if e = 'u' then
      match cs2 with
      | h1 :: h2 :: h3 :: h4 :: cs3 =>
        match hexVal h1, hexVal h2, hexVal h3, hexVal h4 with
        | some a, some b, some c3, some d =>
          some (Char.ofNat (((a * 16 + b) * 16 + c3) * 16 + d), cs3)
        | _, _, _, _ => none
      | _ => none
    else none

/-- Parse the body of a JSON string after the opening quote, returning the
decoded string and the remaining input (fuel-bounded; each step consumes
at least one character, so fuel = input length suffices). -/
def parseStringBody : Nat → List Char → Option (String × List Char)
  | 0, _ => none
  | Nat.succ _, [] => none
  | Nat.succ fuel, c :: cs =>
    if c = '"' then some ("", cs)
    else if c = '\\' then
      match parseEscape cs with
      | some (ch, rest) =>
        match parseStringBody fuel rest with
        | some (s, rest2) => some (ch.toString ++ s, rest2)
        | none => none
      | none => none
    else if c.toNat < 32 then none
    else
      match parseStringBody fuel cs with
      | some (s, rest) => some (c.toString ++ s, rest)
      | none => none

/-- Lex a run of decimal digits. -/
def lexDigits : List Char → (List Char × List Char)
  | [] => ([], [])
  | c :: cs =>
    if c.isDigit then
      let (ds, rest) := lexDigits cs
      (c :: ds, rest)
    else ([], c :: cs)

/-- Lex the optional fraction part of a JSON number; a dot must be
followed by at least one digit. -/
def lexFrac : List Char → Option (List Char × List Char)
  | '.' :: rest =>
    let (ds, r) := lexDigits rest
    if ds.isEmpty then none else some ('.' :: ds, r)
  | cs => some ([], cs)

/-- Lex the optional exponent part of a JSON number; e or E must be
followed by an optionally signed digit run. -/
def lexExp : List Char → Option (List Char × List Char)
  | e :: rest =>
    if e = 'e' ∨ e = 'E' then
      match rest with
      | s :: rest2 =>
        if s = '+' ∨ s = '-' then
          let (ds, r) := lexDigits rest2
          if ds.isEmpty then none else some (e :: s :: ds, r)
        else
          let (ds, r) := lexDigits rest
          if ds.isEmpty then none else some (e :: ds, r)
      | [] => none
    else some ([], e :: rest)
  | [] => some ([], [])

/-- Lex a JSON number (sign, integer part, optional fraction and
exponent), returning its lexeme. -/
def lexNumber (cs : List Char) : Option (String × List Char) :=
  let (neg, cs1) :=
    match cs with
    | '-' :: rest => (['-'], rest)
    | _ => (([] : List Char), cs)
  match cs1 with
  | [] => none
  | c :: _ =>
    if ¬ c.isDigit then none
    else
      let (intPart, cs2) := lexDigits cs1
      -- JSON forbids leading zeros on a multi-digit integer part
      if intPart.length > 1 ∧ intPart.headD '0' = '0' then none
      else
        match lexFrac cs2 with
        | none => none
        | some (fracPart, cs3) =>
          match lexExp cs3 with
          | none => none
          | some (expPart, cs4) =>
            some (String.mk (neg ++ intPart ++ fracPart ++ expPart), cs4)

mutual

/-- Parse one JSON value (fuel-bounded recursive descent). -/
def parseValue : Nat → List Char → Option (Json × List Char)
  | 0, _ => none
  | Nat.succ fuel, cs =>
    match skipWs cs with
    | 'n' :: 'u' :: 'l' :: 'l' :: rest => some (Json.null, rest)
    | 't' :: 'r' :: 'u' :: 'e' :: rest => some (Json.bool true, rest)
    | 'f' :: 'a' :: 'l' :: 's' :: 'e' :: rest => some (Json.bool false, rest)
    | '"' :: rest =>
      match parseStringBody (rest.length + 1) rest with
      | some (s, rest2) => some (Json.str s, rest2)
      | none => none
    | '[' :: rest =>
      (match skipWs rest with
       | ']' :: rest2 => some (Json.arr [], rest2)
       | _ =>
         match parseArrayItems fuel rest with
         | some (vs, rest2) => some (Json.arr vs, rest2)
         | none => none)
    | c :: rest =>
      if c = lbrace then
        match skipWs rest with
        | c2 :: rest2 =>
          if c2 = rbrace then some (Json.obj [], rest2)
          else
            (match parseObjectItems fuel (c2 :: rest2) with
             | some (fs, rest3) => some (Json.obj fs, rest3)
             | none => none)
        | [] => none
      else
        match lexNumber (c :: rest) with
        | some (lexeme, rest2) => some (Json.num lexeme, rest2)
        | none => none
    | [] => none

/-- Parse one or more comma-separated array items up to the closing
bracket. -/
def parseArrayItems : Nat → List Char → Option (List Json × List Char)
  | 0, _ => none
  | Nat.succ fuel, cs =>
    match parseValue fuel cs with
    | some (v, rest) =>
      (match skipWs rest with
       | ',' :: rest2 =>
         match parseArrayItems fuel rest2 with
         | some (vs, rest3) => some (v :: vs, rest3)
         | none => none
       | ']' :: rest2 => some ([v], rest2)
       | _ => none)
    | none => none

/-- Parse one or more comma-separated object members up to the closing
brace. -/
def parseObjectItems : Nat → List Char → Option (List (String × Json) × List Char)
  | 0, _ => none
  | Nat.succ fuel, cs =>
    match skipWs cs with
    | '"' :: rest =>
      (match parseStringBody (rest.length + 1) rest with
       | some (k, rest2) =>
         (match skipWs rest2 with
          | ':' :: rest3 =>
            (match parseValue fuel rest3 with
             | some (v, rest4) =>
               (match skipWs rest4 with
                | ',' :: rest5 =>
                  (match parseObjectItems fuel rest5 with
                   | some (fs, rest6) => some ((k, v) :: fs, rest6)
                   | none => none)
                | c :: rest5 =>
                  if c = rbrace then some ([(k, v)], rest5) else none
                | [] => none)
             | none => none)
          | _ => none)
       | none => none)
    | _ => none

end

/-- Model of JavaScript JSON.parse: none models a thrown SyntaxError.
The whole input (up to trailing whitespace) must be consumed. -/
def jsonParse (s : String) : Option Json :=
  match parseValue (2 * s.data.length + 2) s.data with
  | some (v, rest) =>
    match skipWs rest with
    | [] => some v
    | _ :: _ => none
  | none => none

/-- Whether a lexed JSON number denotes zero: every mantissa digit
(before any exponent marker) is 0. -/
def numIsZero (raw : String) : Bool :=
  (raw.data.takeWhile (fun c => ¬ (c = 'e' ∨ c = 'E'))).all
    (fun c => ¬ ('1' ≤ c ∧ c ≤ '9'))

/-- Model of the JavaScript String trim method: strip whitespace from
both ends. -/
def jsTrim (s : String) : String :=
  String.mk
    (((s.data.dropWhile Char.isWhitespace).reverse.dropWhile
        Char.isWhitespace).reverse)

/-- Whether the first list is an initial segment of the second. -/
def charsStartWith : List Char → List Char → Bool
  | [], _ => true
  | _ :: _, [] => false
  | p :: ps, c :: cs => if p = c then charsStartWith ps cs else false

/-- Model of the JavaScript String startsWith method. -/
def jsStartsWith (s pat : String) : Bool :=
  charsStartWith pat.data s.data

/-- JavaScript truthiness of a JSON value, as used by the conditional
rendering guards in the components. -/
def Json.truthy : Json → Bool
  | Json.null => false
  | Json.bool b => b
  | Json.num raw => ¬ numIsZero raw
  | Json.str s => s ≠ ""
  | Json.arr _ => true
  | Json.obj _ => true

/-- The images prop of ProductCard: a single string or an array of
strings (its declared TypeScript type), or absent. -/
inductive ImagesInput where
  | str (s : String)
  | arr (urls : List String)

/-- ProductCard image resolution (the try/catch block): a string is fed
to JSON.parse and, when the result is a non-empty array, its first
element is taken; a bare non-empty array yields its first element; every
other case, including a parse exception, yields null. -/
def imageUrlOf : Option ImagesInput → Option Json
  | none => none
  | some (ImagesInput.str s) =>
    (match jsonParse s with
     | some (Json.arr (x :: _)) => some x
     | some _ => none
     | none => none)
  | some (ImagesInput.arr []) => none
  | some (ImagesInput.arr (u :: _)) => some (Json.str u)

/-- The image actually displayed: the img element renders only when the
resolved imageUrl is truthy (with imageError initially false); otherwise
the placeholder shows and the image is absent. -/
def displayImageUrl (images : Option ImagesInput) : Option Json :=
  match imageUrlOf images with
  | some j => if j.truthy then some j else none
  | none => none

/-- Modelled from the spec: the repository gives no definition of
"looks like a URL" (no such check exists in the code); this follows the
ordinary reading as an http or https scheme. -/
def looksLikeUrl (s : String) : Bool :=
  jsStartsWith s "http://" || jsStartsWith s "https://"

/-- Modelled from the spec: image resolution as the spec describes it,
identical to the code except that a string which fails to parse falls
back to being used as the literal single URL when it looks like a URL. -/
def displayImageUrlSpec : Option ImagesInput → Option Json
  | none => none
  | some (ImagesInput.str s) =>
    (match jsonParse s with
     | some (Json.arr (x :: _)) => some x
     | some _ => none
     | none => if looksLikeUrl s then some (Json.str s) else none)
  | some (ImagesInput.arr []) => none
  | some (ImagesInput.arr (u :: _)) => some (Json.str u)

/-- ProductCard price rendering: the price block renders only when price
is truthy (present and non-empty); the shown text keeps the price when
it already starts with the currency glyph and otherwise prepends it. -/
def displayPrice : Option String → Option String
  | none => none
  | some p =>
    if p = "" then none
    else if jsStartsWith p "$" then some p
    else some ("$" ++ p)

/-- Message roles. -/
inductive Role where
  | user
  | assistant

/-- A raw product payload as received over the wire and handed unchanged
to ProductCard; every field of the card props may be absent. The rating
is kept as a raw JSON value (a number on the wire); no claim inspects
it. -/
structure RawProduct where
  asin : Option String := none
  title : Option String := none
  brand : Option String := none
  price : Option String := none
  rating : Option Json := none
  rating_count : Option String := none
  images : Option ImagesInput := none
  availability : Option String := none
  product_description : Option String := none
  info : Option String := none

/-- A conversation message: role, content, and for assistant replies the
raw products array from the response (passed through verbatim). -/
structure Message where
  role : Role
  content : String
  products : Option (List RawProduct) := none

/-- The body of the POST /api/chat request. -/
structure ChatRequest where
  content : String
  session_id : Option String

/-- A decoded response body; none for session_id or products models an
absent or null field. -/
structure ChatResponse where
  session_id : Option String := none
  message : String := ""
  products : Option (List RawProduct) := none

/-- Transport outcome of one fetch: network failure, or an HTTP response
with its ok flag and (when the body decodes) the decoded body. -/
inductive FetchOutcome where
  | networkError
  | response (ok : Bool) (body : Option ChatResponse)

/-- The conversation state owned by the page component: messages,
isLoading, sessionIdRef, and the number of failure toasts raised. -/
structure ConvState where
  messages : List Message
  isLoading : Bool
  sessionId : Option String
  toastCount : Nat

/-- The seeded assistant greeting. -/
def greetingText : String :=
  "Hello! I" ++ apos.toString ++
    "m ShopGPT, your shopping comparison assistant. What product are you looking for today?"

/-- Initial state: one greeting message, not loading, no session token,
no toasts. -/
def initState : ConvState :=
  { messages := [{ role := Role.assistant, content := greetingText }],
    isLoading := false,
    sessionId := none,
    toastCount := 0 }

/-- The session-token store step (if data.session_id is truthy, store
it): an absent token, and likewise the falsy empty string, leaves the
held token unchanged. -/
def updateSessionId (old sid : Option String) : Option String :=
  match sid with
  | some s => if s = "" then old else some s
  | none => old

/-- The synchronous head of handleSendMessage: append the User message,
set isLoading, and form the request that the fetch will carry. -/
def sendStart (message : String) (st : ConvState) : ConvState × ChatRequest :=
  ({ st with
      messages := st.messages ++ [{ role := Role.user, content := message }],
      isLoading := true },
   { content := message, session_id := st.sessionId })

/-- The resumption of handleSendMessage once the fetch settles: on an ok
response with a decodable body, store the session token and append the
Assistant message with the products passed through verbatim; on any
thrown path (network error, non-ok status, undecodable body) raise one
toast; in every case isLoading ends false (the finally block). -/
def sendResolve (outcome : FetchOutcome) (st : ConvState) : ConvState :=
  match outcome with
  | FetchOutcome.response true (some data) =>
    { st with
        sessionId := updateSessionId st.sessionId data.session_id,
        messages := st.messages ++
          [{ role := Role.assistant, content := data.message,
             products := data.products }],
        isLoading := false }
  | _ =>
    { st with toastCount := st.toastCount + 1, isLoading := false }

/-- ChatInput.handleSubmit gating: the trimmed input is handed to onSend
only when it is non-empty and the input is not disabled (disabled is the
isLoading flag of the page). -/
def submitGate (input : String) (disabled : Bool) : Option String :=
  if jsTrim input ≠ "" ∧ disabled = false then some (jsTrim input) else none

/-- Discrete events driving the client: a submission attempt from the
input, or the in-flight fetch settling. -/
inductive Event where
  | submit (input : String)
  | complete (outcome : FetchOutcome)

/-- One event step, returning the new state and the requests issued by
the event. A submit that fails the gate does nothing; a complete event
applies only while a fetch is in flight (isLoading true). -/
def step (st : ConvState) : Event → ConvState × List ChatRequest
  | Event.submit input =>
    (match submitGate input st.isLoading with
     | some message => ((sendStart message st).1, [(sendStart message st).2])
     | none => (st, []))
  | Event.complete outcome =>
    if st.isLoading then (sendResolve outcome st, []) else (st, [])

/-- Run a sequence of events, collecting every request issued. -/
def run (st : ConvState) : List Event → ConvState × List ChatRequest
  | [] => (st, [])
  | e :: es =>
    ((run (step st e).1 es).1, (step st e).2 ++ (run (step st e).1 es).2)

/-- The effective session token an event delivers: a complete event with
an ok, decodable response whose session_id is truthy; every other event
delivers none. -/
def eventNewToken : Event → Option String
  | Event.complete (FetchOutcome.response true (some data)) =>
    (match data.session_id with
     | some s => if s = "" then none else some s
     | none => none)
  | _ => none

/-- Whether an event is a submission attempt. -/
def isSubmitEvent : Event → Bool
  | Event.submit _ => true
  | Event.complete _ => false

/-- Whether a fetch outcome takes the thrown path of handleSendMessage:
network failure, a non-ok status, or an undecodable body. -/
def isFailure : FetchOutcome → Bool
  | FetchOutcome.networkError => true
  | FetchOutcome.response false _ => true
  | FetchOutcome.response true none => true
  | FetchOutcome.response true (some _) => false

/-- A raw payload with no title field, used to exhibit the absence of
product rejection. -/
def titlelessProduct : RawProduct :=
  { asin := some "A1", price := some "9.99" }

/- ------------------------------------------------------------------
Helper lemmas shared by the claim theorems.
------------------------------------------------------------------ -/

theorem run_nil (st : ConvState) : run st [] = (st, []) := rfl

theorem run_cons (st : ConvState) (e : Event) (es : List Event) :
    run st (e :: es) =
      ((run (step st e).1 es).1, (step st e).2 ++ (run (step st e).1 es).2) := rfl

theorem submitGate_loading (input : String) : submitGate input true = none := by
  simp [submitGate]

theorem submitGate_pass (input : String) (h : ¬ jsTrim input = "") :
    submitGate input false = some (jsTrim input) := by
  simp [submitGate, h]

theorem step_submit_loading (st : ConvState) (input : String)
    (hl : st.isLoading = true) : step st (Event.submit input) = (st, []) := by
  simp [step, hl, submitGate_loading]

theorem step_submit_pass (st : ConvState) (input : String)
    (h1 : ¬ jsTrim input = "") (h2 : st.isLoading = false) :
    step st (Event.submit input) =
      ({ st with
          messages := st.messages ++ [{ role := Role.user, content := jsTrim input }],
          isLoading := true },
       [{ content := jsTrim input, session_id := st.sessionId }]) := by
  simp [step, h2, submitGate_pass input h1, sendStart]

theorem step_token_of_none (st : ConvState) (e : Event)
    (h : eventNewToken e = none) : (step st e).1.sessionId = st.sessionId := by
  cases e with
  | submit input =>
    cases hg : submitGate input st.isLoading with
    | none => simp [step, hg]
    | some m => simp [step, hg, sendStart]
  | complete o =>
    by_cases hl : st.isLoading = true
    · cases o with
      | networkError => simp [step, hl, sendResolve]
      | response ok body =>
        cases ok with
        | false => simp [step, hl, sendResolve]
        | true =>
          cases body with
          | none => simp [step, hl, sendResolve]
          | some data =>
            cases hsid : data.session_id with
            | none => simp [step, hl, sendResolve, updateSessionId, hsid]
            | some s =>
              by_cases hs : s = ""
              · simp [step, hl, sendResolve, updateSessionId, hsid, hs]
              · exfalso
                have := h
                simp [eventNewToken, hsid, hs] at this
    · simp [step, hl]

theorem step_requests_sessionId (st : ConvState) (e : Event) :
    ∀ r ∈ (step st e).2, r.session_id = st.sessionId := by
  cases e with
  | submit input =>
    cases hg : submitGate input st.isLoading with
    | none => simp [step, hg]
    | some m => simp [step, hg, sendStart]
  | complete o =>
    by_cases hl : st.isLoading = true <;> simp [step, hl]

theorem run_token_carry (st : ConvState) (t : String) (es : List Event)
    (hto : st.sessionId = some t)
    (hes : ∀ e ∈ es, eventNewToken e = none) :
    (run st es).1.sessionId = some t ∧
    ∀ r ∈ (run st es).2, r.session_id = some t := by
  induction es generalizing st with
  | nil => simp [run_nil, hto]
  | cons e es ih =>
    have h1 : (step st e).1.sessionId = some t := by
      rw [step_token_of_none st e (hes e (List.mem_cons_self e es))]
      exact hto
    have h2 : ∀ r ∈ (step st e).2, r.session_id = some t := by
      intro r hr
      rw [step_requests_sessionId st e r hr]
      exact hto
    have ihh := ih (step st e).1 h1
      (fun e' he' => hes e' (List.mem_cons_of_mem e he'))
    refine ⟨by rw [run_cons]; exact ihh.1, ?_⟩
    intro r hr
    rw [run_cons] at hr
    rcases List.mem_append.mp hr with hcase | hcase
    · exact h2 r hcase
    · exact ihh.2 r hcase

theorem submits_keep_loading (st : ConvState) (es : List Event)
    (hl : st.isLoading = true) (hs : ∀ e ∈ es, isSubmitEvent e = true) :
    (run st es).1.isLoading = true := by
  induction es generalizing st with
  | nil => simpa [run_nil] using hl
  | cons e es ih =>
    have he := hs e (List.mem_cons_self e es)
    cases e with
    | submit input =>
      rw [run_cons, step_submit_loading st input hl]
      exact ih st hl (fun e' he' => hs e' (List.mem_cons_of_mem _ he'))
    | complete o => simp [isSubmitEvent] at he

theorem step_token_cases (st : ConvState) (e : Event) :
    (step st e).1.sessionId = st.sessionId ∨
    ∃ t, ¬ t = "" ∧ eventNewToken e = some t ∧
      (step st e).1.sessionId = some t := by
  by_cases h : eventNewToken e = none
  · exact Or.inl (step_token_of_none st e h)
  · cases e with
    | submit input => simp [eventNewToken] at h
    | complete o =>
      cases o with
      | networkError => simp [eventNewToken] at h
      | response ok body =>
        cases ok with
        | false => simp [eventNewToken] at h
        | true =>
          cases body with
          | none => simp [eventNewToken] at h
          | some data =>
            cases hsid : data.session_id with
            | none => simp [eventNewToken, hsid] at h
            | some s =>
              by_cases hs : s = ""
              · simp [eventNewToken, hsid, hs] at h
              · by_cases hl : st.isLoading = true
                · refine Or.inr ⟨s, hs, by simp [eventNewToken, hsid, hs], ?_⟩
                  simp [step, hl, sendResolve, updateSessionId, hsid, hs]
                · exact Or.inl (by simp [step, hl])

theorem run_token_origin (st : ConvState) (es : List Event) :
    (run st es).1.sessionId = st.sessionId ∨
    ∃ t, ¬ t = "" ∧ (run st es).1.sessionId = some t ∧
      ∃ e ∈ es, eventNewToken e = some t := by
  induction es generalizing st with
  | nil => exact Or.inl (by simp [run_nil])
  | cons e es ih =>
    rcases ih (step st e).1 with hsame | ⟨t, ht, hrun, e', he', htok⟩
    · rcases step_token_cases st e with h2 | ⟨t, ht, htok, hs⟩
      · exact Or.inl (by rw [run_cons]; rw [hsame, h2])
      · refine Or.inr ⟨t, ht, ?_, e, List.mem_cons_self e es, htok⟩
        rw [run_cons]
        rw [hsame, hs]
    · refine Or.inr ⟨t, ht, by rw [run_cons]; exact hrun,
        e', List.mem_cons_of_mem e he', htok⟩

/- ------------------------------------------------------------------
Claim theorems.
------------------------------------------------------------------ -/

/-- C1: a send issued while pending is true, or whose text is empty
after trimming, is a no-op: the state is unchanged (no User message
appended) and no request is issued. The send entry point of the program
is the gated submission path (ChatInput.handleSubmit calling
handleSendMessage). -/
theorem send_guard_noop (st : ConvState) (input : String)
    (h : st.isLoading = true ∨ jsTrim input = "") :
    step st (Event.submit input) = (st, []) := by
  rcases h with hl | ht
  · exact step_submit_loading st input hl
  · cases hg : submitGate input st.isLoading with
    | none => simp [step, hg]
    | some m =>
      exfalso
      simp [submitGate, ht] at hg

/-- Closed instance of send_guard_noop: submitting "hello" while a fetch
is in flight changes nothing and issues no request. -/
theorem send_guard_noop_witness :
    ({ initState with isLoading := true } : ConvState).isLoading = true ∧
    step { initState with isLoading := true } (Event.submit "hello") =
      ({ initState with isLoading := true }, []) :=
  ⟨rfl, send_guard_noop { initState with isLoading := true } "hello" (Or.inl rfl)⟩

/-- C5: a non-empty trimmed text sent while not pending appends a User
message holding exactly the trimmed text in the same synchronous step
that issues the (single) request, sets pending, and pending stays true
across any further submission events until the exchange resolves. -/
theorem send_appends_user_and_pends (st : ConvState) (input : String)
    (es : List Event)
    (h1 : ¬ jsTrim input = "") (h2 : st.isLoading = false)
    (h3 : ∀ e ∈ es, isSubmitEvent e = true) :
    step st (Event.submit input) =
      ({ st with
          messages := st.messages ++ [{ role := Role.user, content := jsTrim input }],
          isLoading := true },
       [{ content := jsTrim input, session_id := st.sessionId }]) ∧
    (run (step st (Event.submit input)).1 es).1.isLoading = true := by
  have hstep := step_submit_pass st input h1 h2
  refine ⟨hstep, ?_⟩
  rw [hstep]
  exact submits_keep_loading _ es rfl h3

/-- Closed instance of send_appends_user_and_pends: sending " hi "
from the initial state appends the User message "hi", issues one
request carrying the null token, and pending survives a further
submission attempt. -/
theorem send_appends_user_and_pends_witness :
    (¬ jsTrim " hi " = "") ∧ initState.isLoading = false ∧
    (∀ e ∈ [Event.submit "again"], isSubmitEvent e = true) ∧
    (step initState (Event.submit " hi ") =
      ({ initState with
          messages := initState.messages ++
            [{ role := Role.user, content := jsTrim " hi " }],
          isLoading := true },
       [{ content := jsTrim " hi ", session_id := initState.sessionId }]) ∧
     (run (step initState (Event.submit " hi ")).1 [Event.submit "again"]).1.isLoading = true) :=
  ⟨by decide, rfl, by decide,
   send_appends_user_and_pends initState " hi " [Event.submit "again"]
     (by decide) rfl (by decide)⟩

/-- C4: a failed exchange (network failure, non-ok status such as 500,
or an undecodable body) appends no Assistant message, leaves the
message list as it was plus only the User message appended at send
time, ends with pending false, raises exactly one failure toast, and
leaves the session token untouched. -/
theorem transport_failure_consistency (st : ConvState) (input : String)
    (outcome : FetchOutcome)
    (h1 : ¬ jsTrim input = "") (h2 : st.isLoading = false)
    (hf : isFailure outcome = true) :
    (step (step st (Event.submit input)).1 (Event.complete outcome)).1.messages =
      st.messages ++ [{ role := Role.user, content := jsTrim input }] ∧
    (step (step st (Event.submit input)).1 (Event.complete outcome)).1.isLoading = false ∧
    (step (step st (Event.submit input)).1 (Event.complete outcome)).1.toastCount =
      st.toastCount + 1 ∧
    (step (step st (Event.submit input)).1 (Event.complete outcome)).1.sessionId =
      st.sessionId := by
  have hstep := step_submit_pass st input h1 h2
  rw [hstep]
  cases outcome with
  | networkError => simp [step, sendResolve]
  | response ok body =>
    cases ok with
    | false => simp [step, sendResolve]
    | true =>
      cases body with
      | none => simp [step, sendResolve]
      | some data => simp [isFailure] at hf

/-- Closed instance of transport_failure_consistency at a status-500
response: the list ends at greeting plus the sent User message, pending
is false, one toast, token still null. -/
theorem transport_failure_consistency_witness :
    (¬ jsTrim "hi" = "") ∧ initState.isLoading = false ∧
    isFailure (FetchOutcome.response false none) = true ∧
    ((step (step initState (Event.submit "hi")).1
        (Event.complete (FetchOutcome.response false none))).1.messages =
      initState.messages ++ [{ role := Role.user, content := jsTrim "hi" }] ∧
     (step (step initState (Event.submit "hi")).1
        (Event.complete (FetchOutcome.response false none))).1.isLoading = false ∧
     (step (step initState (Event.submit "hi")).1
        (Event.complete (FetchOutcome.response false none))).1.toastCount =
      initState.toastCount + 1 ∧
     (step (step initState (Event.submit "hi")).1
        (Event.complete (FetchOutcome.response false none))).1.sessionId =
      initState.sessionId) :=
  ⟨by decide, rfl, rfl,
   transport_failure_consistency initState "hi" (FetchOutcome.response false none)
     (by decide) rfl rfl⟩

/-- C3: the session-token protocol. An event delivering no token (any
submission; a failed exchange; a response whose session_id is absent or
falsy) leaves the held token unchanged, so the client never synthesizes
or mutates a token. A successful exchange returning a non-empty token
stores it verbatim, and as long as subsequent responses deliver no
token it stays held unchanged and every subsequently issued request
carries it verbatim. -/
theorem session_token_protocol (st0 st : ConvState) (e0 : Event)
    (data : ChatResponse) (t : String) (es : List Event)
    (h0 : eventNewToken e0 = none)
    (hload : st.isLoading = true)
    (hsid : data.session_id = some t) (hne : ¬ t = "")
    (hes : ∀ e ∈ es, eventNewToken e = none) :
    (step st0 e0).1.sessionId = st0.sessionId ∧
    (step st (Event.complete (FetchOutcome.response true (some data)))).1.sessionId
      = some t ∧
    (run (step st (Event.complete (FetchOutcome.response true (some data)))).1
        es).1.sessionId = some t ∧
    ∀ r ∈ (run (step st (Event.complete (FetchOutcome.response true (some data)))).1
        es).2, r.session_id = some t := by
  have hstore :
      (step st (Event.complete (FetchOutcome.response true (some data)))).1.sessionId
        = some t := by
    simp [step, hload, sendResolve, updateSessionId, hsid, hne]
  have hcarry := run_token_carry
    (step st (Event.complete (FetchOutcome.response true (some data)))).1 t es
    hstore hes
  exact ⟨step_token_of_none st0 e0 h0, hstore, hcarry.1, hcarry.2⟩

/-- Closed instance of session_token_protocol: a submission leaves the
null token unchanged; a response carrying "abc" stores it, and after a
further submission the held token is still "abc" and the issued request
carries "abc". -/
theorem session_token_protocol_witness :
    eventNewToken (Event.submit "a") = none ∧
    ({ initState with isLoading := true } : ConvState).isLoading = true ∧
    ({ session_id := some "abc", message := "m" } : ChatResponse).session_id = some "abc" ∧
    (¬ ("abc" : String) = "") ∧
    (∀ e ∈ [Event.submit "b"], eventNewToken e = none) ∧
    ((step initState (Event.submit "a")).1.sessionId = initState.sessionId ∧
     (step { initState with isLoading := true }
        (Event.complete (FetchOutcome.response true
          (some { session_id := some "abc", message := "m" })))).1.sessionId = some "abc" ∧
     (run (step { initState with isLoading := true }
        (Event.complete (FetchOutcome.response true
          (some { session_id := some "abc", message := "m" })))).1
        [Event.submit "b"]).1.sessionId = some "abc" ∧
     ∀ r ∈ (run (step { initState with isLoading := true }
        (Event.complete (FetchOutcome.response true
          (some { session_id := some "abc", message := "m" })))).1
        [Event.submit "b"]).2, r.session_id = some "abc") :=
  ⟨rfl, rfl, rfl, by decide, by decide,
   session_token_protocol initState { initState with isLoading := true }
     (Event.submit "a") { session_id := some "abc", message := "m" } "abc"
     [Event.submit "b"] rfl rfl rfl (by decide) (by decide)⟩

/-- C9: in every state reachable from the initial state the held
session token is either null or a non-empty token delivered by some
response event, never the empty string; and a response whose session_id
is the empty string (falsy) leaves the held token unchanged, exactly as
an omitted token does. -/
theorem session_token_nonempty_invariant (es : List Event) (st : ConvState)
    (data : ChatResponse) (hsid : data.session_id = some "") :
    ((run initState es).1.sessionId = none ∨
      ∃ t, ¬ t = "" ∧ (run initState es).1.sessionId = some t ∧
        ∃ e ∈ es, eventNewToken e = some t) ∧
    (step st (Event.complete (FetchOutcome.response true (some data)))).1.sessionId
      = st.sessionId := by
  constructor
  · rcases run_token_origin initState es with hsame | hfound
    · exact Or.inl (by rw [hsame]; rfl)
    · exact Or.inr hfound
  · exact step_token_of_none st _ (by simp [eventNewToken, hsid])

/-- Closed instance of session_token_nonempty_invariant on the empty
trace and an empty-string session_id response. -/
theorem session_token_nonempty_invariant_witness :
    ({ session_id := some "", message := "m" } : ChatResponse).session_id = some "" ∧
    (((run initState []).1.sessionId = none ∨
       ∃ t, ¬ t = "" ∧ (run initState []).1.sessionId = some t ∧
         ∃ e ∈ ([] : List Event), eventNewToken e = some t) ∧
     (step initState (Event.complete (FetchOutcome.response true
        (some { session_id := some "", message := "m" })))).1.sessionId
       = initState.sessionId) :=
  ⟨rfl, session_token_nonempty_invariant [] initState
    { session_id := some "", message := "m" } rfl⟩

/-- C2 (amended): no product normalization or rejection exists; on a
successful exchange the Assistant message carries the raw products
array verbatim, so a payload whose asin or title is missing is included
rather than excluded. -/
theorem products_passthrough (st : ConvState) (data : ChatResponse)
    (h : st.isLoading = true) :
    (step st (Event.complete (FetchOutcome.response true (some data)))).1.messages =
      st.messages ++
        [{ role := Role.assistant, content := data.message,
           products := data.products }] := by
  simp [step, h, sendResolve]

/-- Closed instance of products_passthrough with a title-less payload. -/
theorem products_passthrough_witness :
    ({ initState with isLoading := true } : ConvState).isLoading = true ∧
    (step { initState with isLoading := true }
      (Event.complete (FetchOutcome.response true
        (some { message := "m", products := some [titlelessProduct] })))).1.messages =
      ({ initState with isLoading := true } : ConvState).messages ++
        [{ role := Role.assistant, content := "m",
           products := some [titlelessProduct] }] :=
  ⟨rfl, products_passthrough { initState with isLoading := true }
    { message := "m", products := some [titlelessProduct] } rfl⟩

/-- C2 counterexample: run a full exchange whose response holds one
payload with no title; the final Assistant message still contains that
payload — it is not excluded from the product list, refuting the
claimed rejection of payloads missing identity fields. -/
theorem missing_title_not_excluded :
    titlelessProduct.title = none ∧
    (run initState
        [Event.submit "hi",
         Event.complete (FetchOutcome.response true
           (some { message := "m", products := some [titlelessProduct] }))]).1.messages.getLast?
      = some { role := Role.assistant, content := "m",
               products := some [titlelessProduct] } :=
  ⟨rfl, rfl⟩

/-- C6 (amended): when the images field is a string that JSON.parse
fails to decode, the exception is swallowed and the image is absent —
unconditionally, with no fallback to using the raw string as a literal
URL. -/
theorem image_parse_failure_absent (s : String) (h : jsonParse s = none) :
    displayImageUrl (some (ImagesInput.str s)) = none := by
  simp [displayImageUrl, imageUrlOf, h]

/-- Closed instance of image_parse_failure_absent on an undecodable
string. -/
theorem image_parse_failure_absent_witness :
    jsonParse "nope" = none ∧
    displayImageUrl (some (ImagesInput.str "nope")) = none :=
  ⟨rfl, image_parse_failure_absent "nope" rfl⟩

/-- C6 counterexample: a URL-looking string that fails to decode. The
claimed behavior (displayImageUrlSpec, modelled from the spec) uses it
as the literal single image URL; the code (displayImageUrl) treats the
image as absent. -/
theorem image_url_fallback_refuted :
    jsonParse "https://example.com/a.png" = none ∧
    looksLikeUrl "https://example.com/a.png" = true ∧
    displayImageUrlSpec (some (ImagesInput.str "https://example.com/a.png")) =
      some (Json.str "https://example.com/a.png") ∧
    displayImageUrl (some (ImagesInput.str "https://example.com/a.png")) = none :=
  ⟨rfl, rfl, rfl, rfl⟩

/-- C7: the four concrete image-resolution shapes: a string-encoded
array yields its first element; a bare array yields its first element;
a string that does not parse yields no image; an empty array yields no
image. -/
theorem image_resolution_cases :
    displayImageUrl (some (ImagesInput.str "[\"u1\",\"u2\"]")) = some (Json.str "u1") ∧
    displayImageUrl (some (ImagesInput.arr ["u1"])) = some (Json.str "u1") ∧
    displayImageUrl (some (ImagesInput.str "not json")) = none ∧
    displayImageUrl (some (ImagesInput.arr [])) = none :=
  ⟨rfl, rfl, rfl, rfl⟩

/-- C8: a present (truthy) price that does not start with the currency
glyph is displayed with the glyph prepended, one that already starts
with it passes through unchanged, and an absent price yields an absent
displayPrice. -/
theorem price_glyph_normalization (p : String) (h : ¬ p = "") :
    displayPrice (some p) =
      some (if jsStartsWith p "$" then p else "$" ++ p) ∧
    displayPrice none = none := by
  refine ⟨?_, rfl⟩
  by_cases hs : jsStartsWith p "$" = true <;> simp [displayPrice, h, hs]

/-- Closed instance of price_glyph_normalization at "19.99" and, via
the conditional, the unchanged "$19.99" case. -/
theorem price_glyph_normalization_witness :
    (¬ ("19.99" : String) = "") ∧
    (displayPrice (some "19.99") =
      some (if jsStartsWith "19.99" "$" then "19.99" else "$" ++ "19.99") ∧
     displayPrice none = none) :=
  ⟨by decide, price_glyph_normalization "19.99" (by decide)⟩

/-- C10: a present but empty price string is falsy, so no price block
renders: displayPrice is absent, identical to an absent price, and no
bare glyph is produced. -/
theorem empty_price_absent :
    displayPrice (some "") = none ∧ displayPrice none = none :=
  ⟨rfl, rfl⟩

end ShopGPT
